import Mathlib

/-!
Formal model of the air-quality analysis helpers in
`src/data_interpretation.py` and `src/data_visualization.py`.

The pandas `DataFrame` is embedded as a list of rows of cells together with a
list of column names and a flag recording whether the row index is a
`DatetimeIndex`.  Floating-point quantities are modelled as rationals
(`ℚ`); a missing value (`NaN` / `NaT`) is the cell `Cell.null`, and a value
dropped by `dropna` is an `Option` that is `none`.  Side effects of the
plotting functions (console prints, whether a chart was rendered, whether an
image file was written) are reified in a `PlotEffect` record, so that
"prints a warning and performs no rendering" is a statement about the
returned effect.  All functions are total, which models the source
functions' property of not raising on their guarded error paths.
-/

namespace AirQuality

/-- Value stored in one cell of a pandas DataFrame: a string, an integer
(also used for datetime values), a rational (modelling a float), or a
missing value (`NaN`). -/
inductive Cell where
  | str (s : String)
  | int (n : Int)
  | rat (q : ℚ)
  | null
deriving DecidableEq

/-- In-memory tabular dataset (pandas `DataFrame`): a list of column names,
one list of cells per row (aligned with `cols`), the row index, and a flag
recording whether the index is a `DatetimeIndex`. -/
structure DataFrame where
  hasDatetimeIndex : Bool
  index : List Cell
  cols : List String
  rows : List (List Cell)
deriving DecidableEq

/-- Column extraction `df[c]`, as the list of cells of column `c` in row
order.  The source only extracts a column after checking membership, so the
out-of-range default (empty list) is never reached on the modelled paths. -/
def DataFrame.getCol (df : DataFrame) (c : String) : List Cell :=
  if c ∈ df.cols then df.rows.map (fun r => r.getD (df.cols.indexOf c) Cell.null) else []

/-! ### data_interpretation.py -/

/-- Row of the fixed ICA reference table built by `show_ica_health_table`:
category, PM2.5 range, health impact. -/
structure HealthRow where
  categoria : String
  rango_pm25 : String
  impacto : String
deriving DecidableEq

/-- Model of `show_ica_health_table`: takes no input and returns the fixed
five-row reference table, exactly the constant frame built in the source. -/
def show_ica_health_table : List HealthRow :=
  [⟨"Buena", "0–12", "Sin efectos visibles"⟩,
   ⟨"Moderada", "12.1–35.4", "Leve irritación en personas sensibles"⟩,
   ⟨"Dañina para grupos sensibles", "35.5–55.4", "Riesgo respiratorio leve"⟩,
   ⟨"Muy dañina", "55.5–150.4", "Efectos respiratorios y cardíacos"⟩,
   ⟨"Peligrosa", ">150.4", "Riesgo alto para toda la población"⟩]

/-- Model of pandas `Series.value_counts(dropna=False)`: one entry per
distinct cell value of the series (missing values counted as their own
value), paired with its number of occurrences, sorted by descending count.
pandas leaves the relative order of equal counts unspecified; the model
fixes it with a stable sort over the first-occurrence order. -/
def valueCounts (xs : List Cell) : List (Cell × Nat) :=
  List.insertionSort (fun a b => b.2 ≤ a.2) (xs.dedup.map (fun v => (v, xs.count v)))

/-- Total number of counted observations, `categoria_counts["conteo"].sum()`
in the source: the sum of the counts of `value_counts(dropna=False)`. -/
def totalCount (xs : List Cell) : Nat :=
  ((valueCounts xs).map (fun p => p.2)).sum

/-- Row of the summary produced by `category_distribution`: the category
value, its count (`conteo`) and its percentage (`porcentaje`). -/
structure CountRow where
  categoria : Cell
  conteo : Nat
  porcentaje : ℚ
deriving DecidableEq

/-- Model of `category_distribution(df_clean, cat_col="ica_category")`.
Returns the list of printed warning lines together with the optional
summary.  If `cat_col` is not a column, it prints the warning and returns
`None`; otherwise it computes `value_counts(dropna=False)` and appends the
percentage column `conteo / conteo.sum() * 100`. -/
def category_distribution (df : DataFrame) (cat_col : String) :
    List String × Option (List CountRow) :=
  if cat_col ∈ df.cols then
    let counts := valueCounts (df.getCol cat_col)
    let total : Nat := totalCount (df.getCol cat_col)
    ([], some (counts.map (fun p => ⟨p.1, p.2, (p.2 : ℚ) / (total : ℚ) * 100⟩)))
  else
    ([" No se encontró la columna \x27ica_category\x27. Asegúrate de ejecutar la sección de procesamiento de datos."],
     none)

/-! ### data_visualization.py -/

/-- Pollutant columns `CONTAMINANTES` used as the default column set of
`plot_correlation_matrix`. -/
def CONTAMINANTES : List String := ["co", "no", "no2", "o3", "so2", "pm2_5", "pm10", "nh3"]

/-- Model of `pd.to_datetime(x, errors="coerce")` on a single cell:
datetime-like values (modelled by integer cells) parse to themselves, every
other value is coerced to missing (`NaT`, modelled by `none`).  No claim
depends on exactly which raw values parse, only on invalid entries becoming
missing and being dropped. -/
def parseDatetime : Cell → Option Int
  | Cell.int n => some n
  | _ => none

/-- Model of `ensure_datetime_index`: if the index is already a
`DatetimeIndex` the frame is returned unchanged; otherwise, if a `date`
column exists, it is parsed with `errors="coerce"`, rows whose date failed
to parse are dropped, and the column is promoted to the index (removing it
from the columns); otherwise the frame is returned unchanged. -/
def ensure_datetime_index (df : DataFrame) : DataFrame :=
  if df.hasDatetimeIndex then df
  else if "date" ∈ df.cols then
    let i := df.cols.indexOf "date"
    let kept := (df.rows.map (fun r => (parseDatetime (r.getD i Cell.null), r))).filter
      (fun p => p.1.isSome)
    { hasDatetimeIndex := true
      index := kept.map (fun p => Cell.int (p.1.getD 0))
      cols := df.cols.eraseIdx i
      rows := kept.map (fun p => p.2.eraseIdx i) }
  else df

/-- Observable side effects of one plotting call: the lines printed to the
console, whether a chart was rendered (figure drawn and shown), and the
path of the image file written by `savefig`, if any. -/
structure PlotEffect where
  printed : List String
  rendered : Bool
  saved : Option String
deriving DecidableEq

/-- Model of `plot_time_series(df, columnas, ..., save_path)`.  The source
normalizes the index, draws one line per requested column that exists
(silently skipping the others, with no warning and no early return), always
renders, and saves exactly when a path is given.  Returns the effect and
the list of columns actually plotted. -/
def plot_time_series (df : DataFrame) (columnas : List String)
    (save_path : Option String) : PlotEffect × List String :=
  let df1 := ensure_datetime_index df
  (⟨[], true, save_path⟩, columnas.filter (fun c => decide (c ∈ df1.cols)))

/-- Model of `plot_scatter_comparison(df, col_x, col_y, ..., save_path)`:
if either column is absent it prints the warning and returns early (no
render, no save); otherwise it renders and saves exactly when a path is
given. -/
def plot_scatter_comparison (df : DataFrame) (col_x col_y : String)
    (save_path : Option String) : PlotEffect :=
  if col_x ∉ df.cols ∨ col_y ∉ df.cols then
    ⟨["❌ Una o ambas columnas no existen en el DataFrame."], false, none⟩
  else
    ⟨[], true, save_path⟩

/-- Model of `plot_heatmap_hourly(df, columna, ..., save_path)`: after
index normalization, if the column is absent it prints the warning and
returns early (no render, no save); otherwise it pivots and renders the
heatmap, saving exactly when a path is given. -/
def plot_heatmap_hourly (df : DataFrame) (columna : String)
    (save_path : Option String) : PlotEffect :=
  let df1 := ensure_datetime_index df
  if columna ∉ df1.cols then
    ⟨["❌ La columna \x27" ++ columna ++ "\x27 no existe en el DataFrame."], false, none⟩
  else
    ⟨[], true, save_path⟩

/-- Canonical category order `orden_ica` of `plot_ica_distribution` (six
labels: the five-level scale plus the legacy label `Dañina`). -/
def orden_ica : List String :=
  ["Buena", "Moderada", "Dañina para grupos sensibles", "Dañina", "Muy dañina", "Peligrosa"]

/-- Bar counts of `plot_ica_distribution`:
`df["ica_category"].value_counts().reindex(orden_ica, fill_value=0)`, i.e.
for each canonical label, the number of rows carrying exactly that label
(0 when the label does not occur). -/
def icaCounts (df : DataFrame) : List (String × Nat) :=
  orden_ica.map (fun c => (c, (df.getCol "ica_category").count (Cell.str c)))

/-- Total of the reindexed counts, `counts.sum()` in the source (the
number of observations carrying one of the six canonical labels). -/
def totalIca (df : DataFrame) : Nat :=
  ((icaCounts df).map (fun p => p.2)).sum

/-- Model of `plot_ica_distribution(df, ..., save_path)`: if
`ica_category` is absent it warns and returns early; otherwise it draws one
horizontal bar per canonical label with the reindexed counts and annotates
each bar with its count and its share of the total
(`v / total`, rendered as a percentage).  The annotation share is `none`
when the total is zero (pandas produces `NaN` there).  Returns the effect
and the per-bar data (label, count, percentage). -/
def plot_ica_distribution (df : DataFrame) (save_path : Option String) :
    PlotEffect × List (String × Nat × Option ℚ) :=
  if "ica_category" ∉ df.cols then
    (⟨["❌ La columna \x27ica_category\x27 no existe. Ejecuta add_ica_category() primero."],
      false, none⟩, [])
  else
    let counts := icaCounts df
    let total : Nat := totalIca df
    (⟨[], true, save_path⟩,
     counts.map (fun p =>
       (p.1, p.2, if total = 0 then none else some ((p.2 : ℚ) / (total : ℚ) * 100))))

/-- Correlation matrix returned by `plot_correlation_matrix`: the column
labels and the square table of pairwise entries (`none` models a `NaN`
correlation). -/
structure CorrMatrix where
  cols : List String
  entries : List (List (Option ℚ))
deriving DecidableEq

/-- Model of `df[cols].corr()`.  The numeric Pearson computation lives in
pandas, outside this repository; it is abstracted as a function `pearson`
from a pair of column names to the optional correlation value (`none` for
`NaN`).  The matrix rows and columns are indexed by `cols`, entry
`(a, b)` being `pearson a b`. -/
def pandasCorr (pearson : String → String → Option ℚ) (cs : List String) : CorrMatrix :=
  ⟨cs, cs.map (fun a => cs.map (fun b => pearson a b))⟩

/-- Column selection of `plot_correlation_matrix`: the requested columns
(or, when `columnas is None`, the default `CONTAMINANTES`) restricted to
those existing in the frame, in order. -/
def requestedCols (df : DataFrame) (columnas : Option (List String)) : List String :=
  match columnas with
  | none => CONTAMINANTES.filter (fun c => decide (c ∈ df.cols))
  | some cs => cs.filter (fun c => decide (c ∈ df.cols))

/-- Series printed by the top-correlation block of
`plot_correlation_matrix`:
`corr[ref].drop(labels=[ref]).dropna().sort_values(ascending=False)`, i.e.
the `ref` column of the matrix without the `ref` row itself, missing
entries dropped, sorted by descending correlation value. -/
def topCorrSeries (pearson : String → String → Option ℚ) (cs : List String)
    (ref : String) : List (String × ℚ) :=
  List.insertionSort (fun a b => b.2 ≤ a.2)
    ((cs.filter (fun k => decide (k ≠ ref))).filterMap
      (fun k => (pearson k ref).map (fun v => (k, v))))

/-- Model of `plot_correlation_matrix(df, columnas, ..., save_path, ref,
top_k, print_top)`.  Fewer than two existing requested columns: prints the
warning and returns `None` with nothing rendered or saved.  Otherwise it
renders the heatmap of the correlation matrix over the existing requested
columns, saves exactly when a path is given, prints (when requested and
`ref` is among the columns) the `top_k` head of the descending correlation
series with `ref`, and returns the matrix.  Result: the effect, the printed
top list, and the optional matrix. -/
def plot_correlation_matrix (pearson : String → String → Option ℚ) (df : DataFrame)
    (columnas : Option (List String)) (save_path : Option String)
    (ref : String) (top_k : Nat) (print_top : Bool) :
    PlotEffect × List (String × ℚ) × Option CorrMatrix :=
  let cols := requestedCols df columnas
  if cols.length < 2 then
    (⟨["❌ Se necesitan al menos 2 columnas para calcular correlaciones."], false, none⟩,
     [], none)
  else
    let corr := pandasCorr pearson cols
    let top := if print_top && cols.contains ref then (topCorrSeries pearson cols ref).take top_k
      else []
    (⟨[], true, save_path⟩, top, some corr)

/-! ### Concrete frames used by witnesses and counterexamples -/

/-- Small frame with the two particulate columns and a datetime index. -/
def dfPM : DataFrame := ⟨true, [], ["pm2_5", "pm10"], [[Cell.rat 10, Cell.rat 20]]⟩

/-- Frame that has the categorical column but no rows. -/
def dfEmptyCat : DataFrame := ⟨false, [], ["ica_category"], []⟩

/-- Frame with four categorized observations (one missing). -/
def dfCat : DataFrame :=
  ⟨false, [], ["ica_category"],
   [[Cell.str "Buena"], [Cell.str "Buena"], [Cell.str "Moderada"], [Cell.null]]⟩

/-- Concrete stand-in for the library correlation function. -/
def pearson0 : String → String → Option ℚ := fun _ _ => some 1

/-! ### Helper lemmas -/

theorem ensure_datetime_index_cols_subset (df : DataFrame) :
    (ensure_datetime_index df).cols ⊆ df.cols := by
  by_cases h : df.hasDatetimeIndex
  · simp [ensure_datetime_index, h]
  · by_cases hd : "date" ∈ df.cols
    · simp only [ensure_datetime_index, h, hd]
      simp only [Bool.false_eq_true, if_false, if_true]
      exact List.eraseIdx_subset _ _
    · simp [ensure_datetime_index, h, hd]

instance instIsTotalSndDesc {α β : Type} [LinearOrder β] (f : α → β) :
    IsTotal α (fun a b => f b ≤ f a) :=
  ⟨fun a b => le_total (f b) (f a)⟩

instance instIsTransSndDesc {α β : Type} [LinearOrder β] (f : α → β) :
    IsTrans α (fun a b => f b ≤ f a) :=
  ⟨fun _ _ _ h1 h2 => le_trans h2 h1⟩

theorem valueCounts_perm (xs : List Cell) :
    (valueCounts xs).Perm (xs.dedup.map (fun v => (v, xs.count v))) :=
  List.perm_insertionSort _ _

theorem valueCounts_sorted (xs : List Cell) :
    List.Sorted (fun a b : Cell × Nat => b.2 ≤ a.2) (valueCounts xs) :=
  List.sorted_insertionSort _ _

theorem valueCounts_total (xs : List Cell) : totalCount xs = xs.length := by
  have h := ((valueCounts_perm xs).map (fun p : Cell × Nat => p.2)).sum_eq
  unfold totalCount
  rw [h, List.map_map]
  simpa [Function.comp] using List.sum_map_count_dedup_eq_length xs

theorem mem_valueCounts {xs : List Cell} {p : Cell × Nat} (h : p ∈ valueCounts xs) :
    p.1 ∈ xs.dedup ∧ p.2 = xs.count p.1 := by
  have h2 := (valueCounts_perm xs).mem_iff.mp h
  rcases List.mem_map.mp h2 with ⟨v, hv, rfl⟩
  exact ⟨hv, rfl⟩

theorem dedup_replicate_succ {α : Type} [DecidableEq α] (a : α) (n : Nat) :
    (List.replicate (n + 1) a).dedup = [a] := by
  induction n with
  | zero => simp
  | succ n ih =>
      rw [List.replicate_succ, List.dedup_cons_of_mem (by simp [List.mem_replicate])]
      exact ih

theorem uniform_valueCounts (xs : List Cell) (v : Cell) (hx : xs ≠ [])
    (hv : ∀ x ∈ xs, x = v) : valueCounts xs = [(v, xs.length)] := by
  obtain ⟨m, hm⟩ := Nat.exists_eq_succ_of_ne_zero (fun h => hx (List.length_eq_zero.mp h))
  have hrep : xs = List.replicate xs.length v := List.eq_replicate_of_mem hv
  have hd : xs.dedup = [v] := by
    conv_lhs => rw [hrep, hm]
    exact dedup_replicate_succ v m
  have hcount : xs.count v = xs.length := by
    conv_lhs => rw [hrep]
    simp
  unfold valueCounts
  rw [hd]
  simp only [List.map_cons, List.map_nil, hcount]
  rfl

theorem sum_map_div_const (L : List Nat) (T : ℚ) :
    (L.map (fun k : Nat => (k : ℚ) / T * 100)).sum = (L.sum : ℚ) * (100 / T) := by
  induction L with
  | nil => simp
  | cons a t ih =>
      simp only [List.map_cons, List.sum_cons, ih, Nat.cast_add]
      ring

theorem percentages_sum (L : List Nat) (hn : L.sum ≠ 0) :
    (L.map (fun k : Nat => (k : ℚ) / (L.sum : ℚ) * 100)).sum = 100 := by
  rw [sum_map_div_const]
  have h : ((L.sum : ℚ)) ≠ 0 := Nat.cast_ne_zero.mpr hn
  have e : (L.sum : ℚ) * (100 / (L.sum : ℚ)) = ((L.sum : ℚ) / (L.sum : ℚ)) * 100 := by ring
  rw [e, div_self h, one_mul]

theorem rows_sum_100 (xs : List Cell) (hx : xs ≠ []) :
    ((valueCounts xs).map (fun p : Cell × Nat =>
        (p.2 : ℚ) / (totalCount xs : ℚ) * 100)).sum = 100 := by
  have h1 : (valueCounts xs).map (fun p : Cell × Nat =>
        (p.2 : ℚ) / (totalCount xs : ℚ) * 100)
      = ((valueCounts xs).map (fun p => p.2)).map
          (fun k : Nat => (k : ℚ) / (totalCount xs : ℚ) * 100) := by
    rw [List.map_map]
    rfl
  rw [h1]
  have h2 : ((valueCounts xs).map (fun p => p.2)).sum ≠ 0 := by
    have := valueCounts_total xs
    unfold totalCount at this
    rw [this]
    exact fun h => hx (List.length_eq_zero.mp h)
  exact percentages_sum ((valueCounts xs).map (fun p => p.2)) h2

theorem category_distribution_eq (df : DataFrame) (cat_col : String)
    (hc : cat_col ∈ df.cols) :
    category_distribution df cat_col =
      ([], some ((valueCounts (df.getCol cat_col)).map (fun p =>
        ⟨p.1, p.2, (p.2 : ℚ) / (totalCount (df.getCol cat_col) : ℚ) * 100⟩))) := by
  unfold category_distribution
  rw [if_pos hc]

/-! ### Claim theorems -/

/-- C5: time-index normalization is idempotent — applying
`ensure_datetime_index` twice yields the same table as applying it once,
and a table whose index is already a `DatetimeIndex` is returned
unchanged. -/
theorem ensure_datetime_index_idempotent (df : DataFrame) :
    ensure_datetime_index (ensure_datetime_index df) = ensure_datetime_index df ∧
    (df.hasDatetimeIndex = true → ensure_datetime_index df = df) := by
  constructor
  · by_cases h : df.hasDatetimeIndex
    · simp [ensure_datetime_index, h]
    · by_cases hd : "date" ∈ df.cols
      · simp [ensure_datetime_index, h, hd]
      · simp [ensure_datetime_index, h, hd]
  · intro h
    simp [ensure_datetime_index, h]

/-- Witness for C5 at a concrete already-indexed frame. -/
theorem ensure_datetime_index_idempotent_witness :
    ensure_datetime_index (ensure_datetime_index dfPM) = ensure_datetime_index dfPM ∧
    ensure_datetime_index dfPM = dfPM :=
  ⟨(ensure_datetime_index_idempotent dfPM).1,
   (ensure_datetime_index_idempotent dfPM).2 rfl⟩

/-- C1 (amended): the scatter and hourly-heatmap renderers, given a column
absent from the table, print a warning and perform no rendering and no
save; the time-series renderer performs no such validation — it prints
nothing, always renders, and saves whenever a path is given, silently
skipping the missing columns. -/
theorem renderers_missing_column_contract :
    (∀ (df : DataFrame) (x y : String) (sp : Option String), x ∉ df.cols ∨ y ∉ df.cols →
      plot_scatter_comparison df x y sp =
        ⟨["❌ Una o ambas columnas no existen en el DataFrame."], false, none⟩) ∧
    (∀ (df : DataFrame) (c : String) (sp : Option String), c ∉ df.cols →
      plot_heatmap_hourly df c sp =
        ⟨["❌ La columna \x27" ++ c ++ "\x27 no existe en el DataFrame."], false, none⟩) ∧
    (∀ (df : DataFrame) (cs : List String) (sp : Option String),
      (plot_time_series df cs sp).1 = ⟨[], true, sp⟩) := by
  refine ⟨?_, ?_, ?_⟩
  · intro df x y sp h
    simp [plot_scatter_comparison, h]
  · intro df c sp h
    have h1 : c ∉ (ensure_datetime_index df).cols :=
      fun hc => h (ensure_datetime_index_cols_subset df hc)
    simp [plot_heatmap_hourly, h1]
  · intro df cs sp
    rfl

/-- Witness for C1 (amended) at concrete frames and columns. -/
theorem renderers_missing_column_contract_witness :
    ("xyz" ∉ dfPM.cols ∨ "pm10" ∉ dfPM.cols) ∧
    plot_scatter_comparison dfPM "xyz" "pm10" none =
      ⟨["❌ Una o ambas columnas no existen en el DataFrame."], false, none⟩ ∧
    plot_heatmap_hourly dfPM "xyz" (some "h.png") =
      ⟨["❌ La columna \x27" ++ "xyz" ++ "\x27 no existe en el DataFrame."], false, none⟩ ∧
    (plot_time_series dfPM ["pm2_5"] (some "s.png")).1 = ⟨[], true, some "s.png"⟩ :=
  ⟨Or.inl (by decide),
   renderers_missing_column_contract.1 dfPM "xyz" "pm10" none (Or.inl (by decide)),
   renderers_missing_column_contract.2.1 dfPM "xyz" (some "h.png") (by decide),
   renderers_missing_column_contract.2.2 dfPM ["pm2_5"] (some "s.png")⟩

/-- Counterexample to C1 as stated: `plot_time_series`, asked for the
nonexistent column `xyz` with a save path, prints no warning, still
renders, and still saves the file. -/
theorem plot_time_series_saves_despite_missing_column :
    "xyz" ∉ dfPM.cols ∧
    plot_time_series dfPM ["xyz"] (some "serie.png") = (⟨[], true, some "serie.png"⟩, []) :=
  ⟨by decide, rfl⟩

/-- C2: on a table lacking the categorical column, `category_distribution`
prints the warning and returns `None`; it is a total function, so no
exception is possible. -/
theorem category_distribution_missing_column_warns_none
    (df : DataFrame) (cat_col : String) (h : cat_col ∉ df.cols) :
    category_distribution df cat_col =
      ([" No se encontró la columna \x27ica_category\x27. Asegúrate de ejecutar la sección de procesamiento de datos."],
       none) := by
  simp [category_distribution, h]

/-- Witness for C2 at a concrete frame without `ica_category`. -/
theorem category_distribution_missing_column_warns_none_witness :
    "ica_category" ∉ dfPM.cols ∧
    category_distribution dfPM "ica_category" =
      ([" No se encontró la columna \x27ica_category\x27. Asegúrate de ejecutar la sección de procesamiento de datos."],
       none) :=
  ⟨by decide, category_distribution_missing_column_warns_none dfPM "ica_category" (by decide)⟩

/-- C3: on a non-empty table containing the categorical column, the
percentages of the summary of `category_distribution` sum to exactly 100;
in particular, when all rows share one category the summary is the single
row (that category, row count, 100). -/
theorem category_distribution_percentages_sum_100
    (df : DataFrame) (cat_col : String) (hc : cat_col ∈ df.cols) (hr : df.rows ≠ []) :
    (∃ l, category_distribution df cat_col = ([], some l) ∧
        (l.map (fun r => r.porcentaje)).sum = 100) ∧
    (∀ v : Cell, (∀ x ∈ df.getCol cat_col, x = v) →
        category_distribution df cat_col = ([], some [⟨v, df.rows.length, 100⟩])) := by
  have hlen : (df.getCol cat_col).length = df.rows.length := by
    simp [DataFrame.getCol, hc]
  have hx : df.getCol cat_col ≠ [] := by
    intro h
    apply hr
    rw [← List.length_eq_zero, ← hlen, h, List.length_nil]
  constructor
  · refine ⟨_, category_distribution_eq df cat_col hc, ?_⟩
    rw [List.map_map]
    exact rows_sum_100 (df.getCol cat_col) hx
  · intro v hv
    rw [category_distribution_eq df cat_col hc, uniform_valueCounts (df.getCol cat_col) v hx hv]
    have htc : totalCount (df.getCol cat_col) = (df.getCol cat_col).length :=
      valueCounts_total _
    rw [htc, hlen]
    have hn2 : ((df.rows.length : ℚ)) ≠ 0 :=
      Nat.cast_ne_zero.mpr (fun h => hr (List.length_eq_zero.mp h))
    simp only [List.map_cons, List.map_nil]
    rw [div_self hn2, one_mul]

/-- Witness for C3 at a concrete four-row frame. -/
theorem category_distribution_percentages_sum_100_witness :
    "ica_category" ∈ dfCat.cols ∧ dfCat.rows ≠ [] ∧
    ((∃ l, category_distribution dfCat "ica_category" = ([], some l) ∧
        (l.map (fun r => r.porcentaje)).sum = 100) ∧
     (∀ v : Cell, (∀ x ∈ dfCat.getCol "ica_category", x = v) →
        category_distribution dfCat "ica_category" = ([], some [⟨v, dfCat.rows.length, 100⟩]))) :=
  ⟨by decide, by decide,
   category_distribution_percentages_sum_100 dfCat "ica_category" (by decide) (by decide)⟩

/-- C7: on a table containing the categorical column, the summary of
`category_distribution` has one row per distinct category value (missing
values forming their own category), is sorted by descending count, and
carries `porcentaje = conteo / total × 100` where the total is the number
of observations. -/
theorem category_distribution_rows_counts_order
    (df : DataFrame) (cat_col : String) (hc : cat_col ∈ df.cols) :
    ∃ l, category_distribution df cat_col = ([], some l) ∧
      (l.map (fun r => r.categoria)).Perm (df.getCol cat_col).dedup ∧
      List.Sorted (fun a b : CountRow => b.conteo ≤ a.conteo) l ∧
      ∀ r ∈ l, r.conteo = (df.getCol cat_col).count r.categoria ∧
        r.porcentaje = (r.conteo : ℚ) / ((df.getCol cat_col).length : ℚ) * 100 := by
  refine ⟨_, category_distribution_eq df cat_col hc, ?_, ?_, ?_⟩
  · have h := (valueCounts_perm (df.getCol cat_col)).map (fun p : Cell × Nat => p.1)
    rw [List.map_map] at h
    have e2 : (df.getCol cat_col).dedup.map
        ((fun p : Cell × Nat => p.1) ∘ (fun v => (v, (df.getCol cat_col).count v)))
        = (df.getCol cat_col).dedup := by
      have e3 : ((fun p : Cell × Nat => p.1) ∘
          (fun v : Cell => (v, (df.getCol cat_col).count v))) = fun v : Cell => v := rfl
      rw [e3]
      exact List.map_id' _
    rw [e2] at h
    rw [List.map_map]
    exact h
  · exact List.Pairwise.map _ (fun a b hab => hab) (valueCounts_sorted (df.getCol cat_col))
  · intro r hrin
    rcases List.mem_map.mp hrin with ⟨p, hp, rfl⟩
    obtain ⟨hp1, hp2⟩ := mem_valueCounts hp
    refine ⟨hp2, ?_⟩
    rw [valueCounts_total]

/-- Witness for C7 at a concrete four-row frame. -/
theorem category_distribution_rows_counts_order_witness :
    "ica_category" ∈ dfCat.cols ∧
    (∃ l, category_distribution dfCat "ica_category" = ([], some l) ∧
      (l.map (fun r => r.categoria)).Perm (dfCat.getCol "ica_category").dedup ∧
      List.Sorted (fun a b : CountRow => b.conteo ≤ a.conteo) l ∧
      ∀ r ∈ l, r.conteo = (dfCat.getCol "ica_category").count r.categoria ∧
        r.porcentaje = (r.conteo : ℚ) / ((dfCat.getCol "ica_category").length : ℚ) * 100) :=
  ⟨by decide, category_distribution_rows_counts_order dfCat "ica_category" (by decide)⟩

/-- C4: `show_ica_health_table` is a constant with exactly five rows whose
categories appear in the fixed severity order. -/
theorem show_ica_health_table_five_fixed_rows :
    show_ica_health_table.length = 5 ∧
    show_ica_health_table.map (fun r => r.categoria) =
      ["Buena", "Moderada", "Dañina para grupos sensibles", "Muy dañina", "Peligrosa"] :=
  ⟨rfl, rfl⟩

/-- C8: on a table containing `ica_category`, `plot_ica_distribution`
renders bars labelled by the six canonical categories in order, with the
reindexed counts (0 for a canonical category absent from the table), each
bar annotated with its count and its percentage of the total. -/
theorem plot_ica_distribution_canonical_bars (df : DataFrame) (sp : Option String)
    (h : "ica_category" ∈ df.cols) :
    (plot_ica_distribution df sp).1 = ⟨[], true, sp⟩ ∧
    (plot_ica_distribution df sp).2.map (fun p => (p.1, p.2.1)) = icaCounts df ∧
    (plot_ica_distribution df sp).2.map (fun p => p.1) = orden_ica ∧
    (∀ p ∈ (plot_ica_distribution df sp).2,
      Cell.str p.1 ∉ df.getCol "ica_category" → p.2.1 = 0) ∧
    (∀ p ∈ (plot_ica_distribution df sp).2, totalIca df ≠ 0 →
      p.2.2 = some ((p.2.1 : ℚ) / (totalIca df : ℚ) * 100)) := by
  have hg : plot_ica_distribution df sp =
      (⟨[], true, sp⟩,
       (icaCounts df).map (fun p =>
         (p.1, p.2, if totalIca df = 0 then none
           else some ((p.2 : ℚ) / (totalIca df : ℚ) * 100)))) := by
    unfold plot_ica_distribution
    rw [if_neg (fun hn => hn h)]
  refine ⟨by rw [hg], ?_, ?_, ?_, ?_⟩
  · rw [hg, List.map_map]
    have e : ((fun p : String × Nat × Option ℚ => (p.1, p.2.1)) ∘
        (fun p : String × Nat =>
          (p.1, p.2, if totalIca df = 0 then none
            else some ((p.2 : ℚ) / (totalIca df : ℚ) * 100)))) =
        fun p : String × Nat => p := rfl
    rw [e]
    exact List.map_id' _
  · rw [hg, List.map_map]
    unfold icaCounts
    rw [List.map_map]
    rfl
  · rw [hg]
    intro p hp hnot
    rcases List.mem_map.mp hp with ⟨q, hq, rfl⟩
    rcases List.mem_map.mp hq with ⟨c, hcmem, rfl⟩
    exact List.count_eq_zero.mpr hnot
  · rw [hg]
    intro p hp ht
    rcases List.mem_map.mp hp with ⟨q, hq, rfl⟩
    simp only [if_neg ht]

/-- Witness for C8 at a concrete four-row frame. -/
theorem plot_ica_distribution_canonical_bars_witness :
    "ica_category" ∈ dfCat.cols ∧
    ((plot_ica_distribution dfCat (some "bars.png")).1 = ⟨[], true, some "bars.png"⟩ ∧
     (plot_ica_distribution dfCat (some "bars.png")).2.map (fun p => (p.1, p.2.1)) =
       icaCounts dfCat ∧
     (plot_ica_distribution dfCat (some "bars.png")).2.map (fun p => p.1) = orden_ica ∧
     (∀ p ∈ (plot_ica_distribution dfCat (some "bars.png")).2,
       Cell.str p.1 ∉ dfCat.getCol "ica_category" → p.2.1 = 0) ∧
     (∀ p ∈ (plot_ica_distribution dfCat (some "bars.png")).2, totalIca dfCat ≠ 0 →
       p.2.2 = some ((p.2.1 : ℚ) / (totalIca dfCat : ℚ) * 100))) :=
  ⟨by decide, plot_ica_distribution_canonical_bars dfCat (some "bars.png") (by decide)⟩

/-- C6: `plot_correlation_matrix` with fewer than two existing requested
columns warns and returns nothing (no render, no save); with at least two
it renders, saves when a path is given, and returns the correlation matrix
over exactly the existing requested columns. -/
theorem plot_correlation_matrix_column_guard
    (pearson : String → String → Option ℚ) (df : DataFrame) (columnas : Option (List String))
    (sp : Option String) (ref : String) (top_k : Nat) (print_top : Bool) :
    ((requestedCols df columnas).length < 2 →
      plot_correlation_matrix pearson df columnas sp ref top_k print_top =
        (⟨["❌ Se necesitan al menos 2 columnas para calcular correlaciones."], false, none⟩,
         [], none)) ∧
    (2 ≤ (requestedCols df columnas).length →
      ∃ t, plot_correlation_matrix pearson df columnas sp ref top_k print_top =
        (⟨[], true, sp⟩, t, some (pandasCorr pearson (requestedCols df columnas))) ∧
        (pandasCorr pearson (requestedCols df columnas)).cols = requestedCols df columnas) := by
  constructor
  · intro h
    unfold plot_correlation_matrix
    rw [if_pos h]
  · intro h
    refine ⟨(if print_top && (requestedCols df columnas).contains ref
        then (topCorrSeries pearson (requestedCols df columnas) ref).take top_k else []),
      ?_, rfl⟩
    unfold plot_correlation_matrix
    rw [if_neg (Nat.not_lt.mpr h)]

/-- Witness for C6, exercising both branches at concrete frames. -/
theorem plot_correlation_matrix_column_guard_witness :
    ((requestedCols dfEmptyCat none).length < 2 ∧
      plot_correlation_matrix pearson0 dfEmptyCat none none "pm2_5" 5 true =
        (⟨["❌ Se necesitan al menos 2 columnas para calcular correlaciones."], false, none⟩,
         [], none)) ∧
    (2 ≤ (requestedCols dfPM none).length ∧
      ∃ t, plot_correlation_matrix pearson0 dfPM none (some "c.png") "pm2_5" 5 true =
        (⟨[], true, some "c.png"⟩, t, some (pandasCorr pearson0 (requestedCols dfPM none))) ∧
        (pandasCorr pearson0 (requestedCols dfPM none)).cols = requestedCols dfPM none) :=
  ⟨⟨by decide,
    (plot_correlation_matrix_column_guard pearson0 dfEmptyCat none none "pm2_5" 5 true).1
      (by decide)⟩,
   ⟨by decide,
    (plot_correlation_matrix_column_guard pearson0 dfPM none (some "c.png") "pm2_5" 5 true).2
      (by decide)⟩⟩

/-- C9: when the top-correlation block runs (at least two columns,
`print_top` set, `ref` among the columns), the printed list has at most
`top_k` entries, is sorted by descending correlation, and never contains
`ref` itself. -/
theorem plot_correlation_matrix_top_k
    (pearson : String → String → Option ℚ) (df : DataFrame) (columnas : Option (List String))
    (sp : Option String) (ref : String) (top_k : Nat)
    (h2 : 2 ≤ (requestedCols df columnas).length)
    (href : ref ∈ requestedCols df columnas) :
    (plot_correlation_matrix pearson df columnas sp ref top_k true).2.1.length ≤ top_k ∧
    List.Sorted (fun a b : String × ℚ => b.2 ≤ a.2)
      (plot_correlation_matrix pearson df columnas sp ref top_k true).2.1 ∧
    ∀ p ∈ (plot_correlation_matrix pearson df columnas sp ref top_k true).2.1, p.1 ≠ ref := by
  have hcont : (requestedCols df columnas).contains ref = true :=
    List.elem_eq_true_of_mem href
  have hout : (plot_correlation_matrix pearson df columnas sp ref top_k true).2.1 =
      (topCorrSeries pearson (requestedCols df columnas) ref).take top_k := by
    unfold plot_correlation_matrix
    rw [if_neg (Nat.not_lt.mpr h2)]
    simp only [hcont, Bool.true_and, if_true]
  refine ⟨?_, ?_, ?_⟩
  · rw [hout]
    exact List.length_take_le _ _
  · rw [hout]
    exact List.Pairwise.sublist (List.take_sublist _ _)
      (List.sorted_insertionSort _ _)
  · rw [hout]
    intro p hp
    have hp2 := List.mem_of_mem_take hp
    have hp3 := (List.perm_insertionSort
      (fun a b : String × ℚ => b.2 ≤ a.2) _).mem_iff.mp hp2
    rcases List.mem_filterMap.mp hp3 with ⟨k, hk, hmap⟩
    rcases Option.map_eq_some'.mp hmap with ⟨v, hv, hpk⟩
    rcases List.mem_filter.mp hk with ⟨hkm, hkne⟩
    rw [← hpk]
    exact of_decide_eq_true hkne

/-- Witness for C9 at a concrete frame and correlation function. -/
theorem plot_correlation_matrix_top_k_witness :
    2 ≤ (requestedCols dfPM none).length ∧ "pm2_5" ∈ requestedCols dfPM none ∧
    ((plot_correlation_matrix pearson0 dfPM none none "pm2_5" 3 true).2.1.length ≤ 3 ∧
     List.Sorted (fun a b : String × ℚ => b.2 ≤ a.2)
       (plot_correlation_matrix pearson0 dfPM none none "pm2_5" 3 true).2.1 ∧
     ∀ p ∈ (plot_correlation_matrix pearson0 dfPM none none "pm2_5" 3 true).2.1,
       p.1 ≠ "pm2_5") :=
  ⟨by decide, by decide,
   plot_correlation_matrix_top_k pearson0 dfPM none none "pm2_5" 3 (by decide) (by decide)⟩

/-- C10: on a zero-row table that does contain the categorical column,
`category_distribution` returns an empty summary (not `None`), printing
nothing; totality rules out an exception. -/
theorem category_distribution_empty_table (df : DataFrame) (cat_col : String)
    (hc : cat_col ∈ df.cols) (hr : df.rows = []) :
    category_distribution df cat_col = ([], some []) := by
  simp [category_distribution, hc, DataFrame.getCol, hr, valueCounts]

/-- Witness for C10 at a concrete empty frame with the column. -/
theorem category_distribution_empty_table_witness :
    "ica_category" ∈ dfEmptyCat.cols ∧ dfEmptyCat.rows = [] ∧
    category_distribution dfEmptyCat "ica_category" = ([], some []) :=
  ⟨by decide, rfl, category_distribution_empty_table dfEmptyCat "ica_category" (by decide) rfl⟩

end AirQuality
